import Mathlib

/-!
# Verification of the kickstats-analyzer analytics and prediction core

Shallow embedding of the data-shaping logic of the repository:

* the Analysis dashboard aggregations (`topScorers`, `positionData`,
  `performanceData`, total/average goals) from the analysis page;
* the mock prediction generator (`generatePrediction` with its
  `mockPrediction` record) and `getMostLikelyOutcome` from the
  predictions page backed by the `match_predictions` table;
* the `handlePredict` client-side validation and `getWinnerInfo` from the
  FastAPI-backed predictions page.

JavaScript numbers that only ever hold 2-decimal values or integer
counters are modelled as `ℚ` and `ℤ`; `Number(x.toFixed(2))` is modelled
as exact rounding of the rational to 2 decimal places (`round2`).
`Array.prototype.sort` (stable since ES2019) with comparator
`(a, b) => b.goals - a.goals` is modelled by a stable insertion sort that
keeps earlier input elements first among equal keys: a stable
non-increasing sort is uniquely determined by these two properties, so
the model is faithful to any stable sort implementation.
-/

/-- `Number(x.toFixed(2))`: round a rational to 2 decimal places
(nearest, ties half-up as `round`). -/
def round2 (x : ℚ) : ℚ := (round (x * 100) : ℤ) / 100

/-- Player row as selected by the analysis page (`players` joined with
`teams (name)`): integer counters, position label, optional team name. -/
structure Player where
  id : String
  name : String
  position : String
  goals : ℤ
  assists : ℤ
  matches_played : ℤ
  team : Option String
deriving Repr, DecidableEq

/-- `'x y'.split(' ')` on the character list: split at every space,
keeping empty segments, so the empty string yields `[[]]` and a trailing
space yields a trailing empty segment, exactly as in JavaScript. -/
def splitOnSpace : List Char → List (List Char)
  | [] => [[]]
  | c :: cs =>
    if c = ' ' then [] :: splitOnSpace cs
    else
      match splitOnSpace cs with
      | [] => [[c]]
      | w :: ws => (c :: w) :: ws

/-- `player.name.split(' ').pop() || player.name`: the last
space-separated token of the name, falling back to the full name when the
popped token is the empty string (falsy). -/
def lastWord (s : String) : String :=
  match (splitOnSpace s.data).getLast? with
  | none => s
  | some w => if w = [] then s else String.mk w

/-- `player.teams?.name || 'Unknown'`: team name with falsy fallback. -/
def orUnknown (o : Option String) : String :=
  match o with
  | none => "Unknown"
  | some t => if t = "" then "Unknown" else t

/-- One step of the stable non-increasing-by-goals sort: insert `p` in
front of the first element whose goals do not exceed `p`'s, so that an
element earlier in the input stays first among equal keys. -/
def insertByGoalsDesc (p : Player) : List Player → List Player
  | [] => [p]
  | q :: qs => if q.goals ≤ p.goals then p :: q :: qs else q :: insertByGoalsDesc p qs

/-- Stable sort modelling `.sort((a, b) => b.goals - a.goals)`. -/
def sortByGoalsDesc : List Player → List Player
  | [] => []
  | p :: ps => insertByGoalsDesc p (sortByGoalsDesc ps)

/-- Entry of the top-scorers chart. -/
structure ScorerEntry where
  name : String
  goals : ℤ
  team : String
deriving Repr, DecidableEq

/-- `topScorers`: filter `goals > 0`, sort by goals descending (stable),
take the first 10, project to chart entries. League selection is at its
default `'all'`, which leaves the player list unchanged. -/
def topScorers (players : List Player) : List ScorerEntry :=
  ((sortByGoalsDesc (players.filter (fun p => decide (0 < p.goals)))).take 10).map
    (fun p => ⟨lastWord p.name, p.goals, orUnknown p.team⟩)

/-- One step of the `reduce` building `acc[player.position] =
(acc[player.position] || 0) + 1`: bump the count of a key, appending a
fresh key at the end (JS object keys enumerate in insertion order). -/
def bumpPosition (pos : String) : List (String × Nat) → List (String × Nat)
  | [] => [(pos, 1)]
  | (k, c) :: rest => if k = pos then (k, c + 1) :: rest else (k, c) :: bumpPosition pos rest

/-- `positionData`: `Object.entries` of the count-by-position reduce,
as (position, count) pairs in first-occurrence order. -/
def positionData (players : List Player) : List (String × Nat) :=
  players.foldl (fun acc p => bumpPosition p.position acc) []

/-- Sum of the per-position counts. -/
def sumCounts (l : List (String × Nat)) : Nat :=
  (l.map Prod.snd).sum

/-- Entry of the goals-vs-assists performance chart. -/
structure PerfEntry where
  name : String
  goals : ℤ
  assists : ℤ
  total : ℤ
deriving Repr, DecidableEq

/-- `performanceData`: filter `goals > 0 || assists > 0`, `slice(0, 20)`,
map to entries with `total = goals + assists`. Note the source applies no
sort to this sequence. -/
def performanceData (players : List Player) : List PerfEntry :=
  ((players.filter (fun p => decide (0 < p.goals) || decide (0 < p.assists))).take 20).map
    (fun p => ⟨lastWord p.name, p.goals, p.assists, p.goals + p.assists⟩)

/-- Match row as used by the analysis page: optional scores, status and
league labels. -/
structure MatchRow where
  id : String
  home_score : Option ℤ
  away_score : Option ℤ
  status : String
  league : String
deriving Repr, DecidableEq

/-- The analysis page fetches matches with the query filter
`.eq('status', 'completed')`; only completed matches reach the
aggregation below. -/
def completedMatches (ms : List MatchRow) : List MatchRow :=
  ms.filter (fun m => m.status == "completed")

/-- `totalGoals`: `reduce((sum, match) => sum + (match.home_score || 0) +
(match.away_score || 0), 0)`. -/
def totalGoals (ms : List MatchRow) : ℤ :=
  ms.foldl (fun s m => s + m.home_score.getD 0 + m.away_score.getD 0) 0

/-- `averageGoalsPerMatch`: `length > 0 ? (totalGoals /
length).toFixed(2) : 0`. -/
def averageGoalsPerMatch (ms : List MatchRow) : ℚ :=
  if 0 < ms.length then round2 ((totalGoals ms : ℚ) / (ms.length : ℚ)) else 0

/-- The match-statistics pipeline of the analysis page: the completed
filter applied by the fetch, then the two scalar aggregates (league
selection at its default `'all'` leaves the list unchanged). -/
def matchSummary (rows : List MatchRow) : ℤ × ℚ :=
  (totalGoals (completedMatches rows), averageGoalsPerMatch (completedMatches rows))

/-- Row of the `match_predictions` table as built by the generator. -/
structure PredictionRow where
  match_id : String
  predicted_home_score : ℚ
  predicted_away_score : ℚ
  home_win_probability : ℚ
  draw_probability : ℚ
  away_win_probability : ℚ
  key_factors : List String
  ai_analysis : String
deriving Repr, DecidableEq

/-- The `mockPrediction` record built by `generatePrediction`, as a
function of the five `Math.random()` draws (each in `[0, 1)`):
scores are `Number((r * 3 + 0.5).toFixed(2))`, home/away win
probabilities `Number((r * 40 + 30).toFixed(2))`, draw probability
`Number((r * 30 + 20).toFixed(2))`. The narrative `ai_analysis` string is
abbreviated to its first sentence; it plays no role in any property. -/
def mockPrediction (matchId : String) (r1 r2 r3 r4 r5 : ℚ) : PredictionRow :=
  { match_id := matchId
    predicted_home_score := round2 (r1 * 3 + 0.5)
    predicted_away_score := round2 (r2 * 3 + 0.5)
    home_win_probability := round2 (r3 * 40 + 30)
    draw_probability := round2 (r4 * 30 + 20)
    away_win_probability := round2 (r5 * 40 + 30)
    key_factors := ["Home advantage", "Recent form comparison",
      "Head-to-head record", "Player availability"]
    ai_analysis := "Based on current form, recent performances, and historical data, this match presents an interesting tactical battle." }

/-- `supabase.from('match_predictions').insert(mockPrediction)`: the
migration declares `match_id` as a plain foreign key with no UNIQUE
constraint, so the insert appends unconditionally. -/
def insertPrediction (store : List PredictionRow) (row : PredictionRow) : List PredictionRow :=
  store ++ [row]

/-- `generatePrediction`: build the mock record for the match and insert
it. The source performs no duplicate check before or during this call. -/
def generatePrediction (store : List PredictionRow) (matchId : String)
    (r1 r2 r3 r4 r5 : ℚ) : List PredictionRow :=
  insertPrediction store (mockPrediction matchId r1 r2 r3 r4 r5)

/-- Upcoming match as listed on the predictions page. -/
structure MatchInfo where
  id : String
  match_date : String
  league : String
  status : String
deriving Repr, DecidableEq

/-- `fetchUpcomingMatches`' client-side duplicate filter: drop matches
whose id is in the set of already-predicted match ids. -/
def filterUnpredicted (preds : List PredictionRow) (ms : List MatchInfo) : List MatchInfo :=
  ms.filter (fun m => !((preds.map (fun p => p.match_id)).contains m.id))

/-- `getMostLikelyOutcome`: `Math.max` of the three probabilities, then
chained equality checks `max === home_win_probability`, `max ===
away_win_probability`, else draw. -/
def getMostLikelyOutcome (h d a : ℚ) : String :=
  if max (max h d) a = h then "Home Win"
  else if max (max h d) a = a then "Away Win"
  else "Draw"

/-- Modelled from the spec: winner determination with the documented
tie-break order home preferred over draw preferred over away (the
strictly largest probability wins; a tie at the maximum falls to the
earliest of home, draw, away). Stated for comparison with
`getMostLikelyOutcome`. -/
def specWinner (h d a : ℚ) : String :=
  if d ≤ h ∧ a ≤ h then "Home Win" else if a ≤ d then "Draw" else "Away Win"

/-- Outcome of the `handlePredict` client validation. -/
inductive PredictAction where
  | showError (msg : String)
  | requestPrediction (home away : String)
deriving Repr, DecidableEq

/-- `handlePredict`'s validation chain: missing selection first
(`!homeTeam || !awayTeam`, the empty string being falsy), then the
equal-team check, else the request is issued to the backend. -/
def handlePredictValidate (homeTeam awayTeam : String) : PredictAction :=
  if homeTeam = "" ∨ awayTeam = "" then .showError "Please select both teams."
  else if homeTeam = awayTeam then .showError "Home and Away teams must be different."
  else .requestPrediction homeTeam awayTeam

/-- `getWinnerInfo`: home team only when its probability is strictly
greater than both others, away only when strictly greater than both,
otherwise the draw label. -/
def getWinnerInfo (h d a : ℚ) : String :=
  if d < h ∧ a < h then "home" else if d < a ∧ h < a then "away" else "draw"

/-! ## Helper lemmas -/

lemma round_bounds_int (y : ℚ) (n m : ℤ) (h1 : (n : ℚ) ≤ y) (h2 : y < m) :
    n ≤ round y ∧ round y ≤ m := by
  rw [round_eq]
  constructor
  · exact Int.le_floor.mpr (by linarith)
  · have h3 : ⌊y + 1/2⌋ < m + 1 := Int.floor_lt.mpr (by push_cast; linarith)
    omega

lemma round2_bounds (x : ℚ) (n m : ℤ) (h1 : (n : ℚ) ≤ x * 100) (h2 : x * 100 < m) :
    (n : ℚ) / 100 ≤ round2 x ∧ round2 x ≤ (m : ℚ) / 100 := by
  obtain ⟨ha, hb⟩ := round_bounds_int (x * 100) n m h1 h2
  unfold round2
  constructor
  · have : (n : ℚ) ≤ (round (x * 100) : ℚ) := by exact_mod_cast ha
    linarith
  · have : ((round (x * 100) : ℤ) : ℚ) ≤ (m : ℚ) := by exact_mod_cast hb
    linarith

lemma mem_insertByGoalsDesc {x p : Player} {l : List Player} :
    x ∈ insertByGoalsDesc p l → x = p ∨ x ∈ l := by
  induction l with
  | nil => simp [insertByGoalsDesc]
  | cons q qs ih =>
    simp only [insertByGoalsDesc]
    split
    · intro h
      simpa using h
    · intro h
      rcases List.mem_cons.mp h with h' | h'
      · exact Or.inr (by simp [h'])
      · rcases ih h' with h'' | h''
        · exact Or.inl h''
        · exact Or.inr (List.mem_cons_of_mem _ h'')

lemma pairwise_insertByGoalsDesc {p : Player} {l : List Player}
    (hl : l.Pairwise (fun a b => b.goals ≤ a.goals)) :
    (insertByGoalsDesc p l).Pairwise (fun a b => b.goals ≤ a.goals) := by
  induction l with
  | nil => simp [insertByGoalsDesc]
  | cons q qs ih =>
    rcases List.pairwise_cons.mp hl with ⟨hq, hqs⟩
    simp only [insertByGoalsDesc]
    split
    · rename_i hpq
      refine List.pairwise_cons.mpr ⟨?_, hl⟩
      intro x hx
      rcases List.mem_cons.mp hx with h' | h'
      · simpa [h'] using hpq
      · exact le_trans (hq x h') hpq
    · rename_i hpq
      push_neg at hpq
      refine List.pairwise_cons.mpr ⟨?_, ih hqs⟩
      intro x hx
      rcases mem_insertByGoalsDesc hx with h' | h'
      · simp only [h']
        linarith
      · exact hq x h'

lemma pairwise_sortByGoalsDesc (l : List Player) :
    (sortByGoalsDesc l).Pairwise (fun a b => b.goals ≤ a.goals) := by
  induction l with
  | nil => simp [sortByGoalsDesc]
  | cons p ps ih => exact pairwise_insertByGoalsDesc ih

lemma perm_insertByGoalsDesc (p : Player) (l : List Player) :
    List.Perm (insertByGoalsDesc p l) (p :: l) := by
  induction l with
  | nil => simp [insertByGoalsDesc]
  | cons q qs ih =>
    simp only [insertByGoalsDesc]
    split
    · exact List.Perm.refl _
    · exact List.Perm.trans (ih.cons q) (List.Perm.swap p q qs)

lemma perm_sortByGoalsDesc (l : List Player) : List.Perm (sortByGoalsDesc l) l := by
  induction l with
  | nil => exact List.Perm.refl _
  | cons p ps ih =>
    exact List.Perm.trans (perm_insertByGoalsDesc p _) (ih.cons p)

lemma filter_insertByGoalsDesc (p : Player) (l : List Player) (v : ℤ) :
    (insertByGoalsDesc p l).filter (fun q => q.goals == v) =
      if p.goals = v then p :: l.filter (fun q => q.goals == v)
      else l.filter (fun q => q.goals == v) := by
  induction l with
  | nil =>
    by_cases h : p.goals = v
    · simp [insertByGoalsDesc, List.filter_cons, h]
    · simp [insertByGoalsDesc, List.filter_cons, h]
  | cons q qs ih =>
    simp only [insertByGoalsDesc]
    split
    · rename_i hpq
      simp only [List.filter_cons]
      by_cases h1 : p.goals = v <;> simp [h1]
    · rename_i hpq
      push_neg at hpq
      simp only [List.filter_cons, ih]
      by_cases hp : p.goals = v
      · have hq : ¬q.goals = v := by
          intro h
          rw [h] at hpq
          rw [hp] at hpq
          exact lt_irrefl v hpq
        simp [hp, hq]
      · by_cases hq : q.goals = v <;> simp [hp, hq]

lemma filter_sortByGoalsDesc (l : List Player) (v : ℤ) :
    (sortByGoalsDesc l).filter (fun q => q.goals == v) = l.filter (fun q => q.goals == v) := by
  induction l with
  | nil => rfl
  | cons p ps ih =>
    simp only [sortByGoalsDesc, filter_insertByGoalsDesc, List.filter_cons, ih]
    by_cases hp : p.goals = v <;> simp [hp]

lemma round2_eval (x : ℚ) (n : ℤ) (h1 : (n : ℚ) ≤ x * 100 + 1/2) (h2 : x * 100 + 1/2 < n + 1) :
    round2 x = (n : ℚ) / 100 := by
  unfold round2
  rw [round_eq]
  congr 1
  exact_mod_cast Int.floor_eq_iff.mpr ⟨by exact_mod_cast h1, by exact_mod_cast h2⟩

lemma sumCounts_bumpPosition (pos : String) (acc : List (String × Nat)) :
    sumCounts (bumpPosition pos acc) = sumCounts acc + 1 := by
  induction acc with
  | nil => simp [bumpPosition, sumCounts]
  | cons kc rest ih =>
    obtain ⟨k, c⟩ := kc
    simp only [bumpPosition]
    split
    · simp only [sumCounts, List.map_cons, List.sum_cons]
      omega
    · simp only [sumCounts, List.map_cons, List.sum_cons] at ih ⊢
      omega

lemma sumCounts_foldl_bump (l : List Player) (acc : List (String × Nat)) :
    sumCounts (l.foldl (fun acc p => bumpPosition p.position acc) acc) =
      sumCounts acc + l.length := by
  induction l generalizing acc with
  | nil => simp
  | cons p ps ih =>
    simp only [List.foldl_cons, List.length_cons, ih, sumCounts_bumpPosition]
    omega

/-- C9: for every player collection, the per-position counts produced by
the position distribution sum exactly to the total number of input
players (every player is counted under its position label, recognized or
not). -/
theorem c9_position_counts_sum (players : List Player) :
    sumCounts (positionData players) = players.length := by
  simp only [positionData]
  rw [sumCounts_foldl_bump]
  simp [sumCounts]

theorem c9_position_counts_sum_witness :
    sumCounts (positionData
      [⟨"p1", "A", "Forward", 1, 0, 0, none⟩, ⟨"p2", "B", "Midfielder", 5, 5, 0, none⟩,
        ⟨"p3", "C", "Forward", 0, 0, 0, none⟩]) =
      ([⟨"p1", "A", "Forward", 1, 0, 0, none⟩, ⟨"p2", "B", "Midfielder", 5, 5, 0, none⟩,
        (⟨"p3", "C", "Forward", 0, 0, 0, none⟩ : Player)]).length :=
  c9_position_counts_sum _

/-- C5: the match summary counts only completed matches in the
denominator: on [2-1 completed, 0-0 completed, scheduled] it yields
totalGoals 3 and average 1.5 (denominator 2). -/
theorem c5_matchSummary_concrete :
    matchSummary
      [⟨"m1", some 2, some 1, "completed", "L"⟩, ⟨"m2", some 0, some 0, "completed", "L"⟩,
        ⟨"m3", none, none, "scheduled", "L"⟩] = (3, 3/2) := by
  have hc : completedMatches
      [⟨"m1", some 2, some 1, "completed", "L"⟩, ⟨"m2", some 0, some 0, "completed", "L"⟩,
        (⟨"m3", none, none, "scheduled", "L"⟩ : MatchRow)] =
      [⟨"m1", some 2, some 1, "completed", "L"⟩, ⟨"m2", some 0, some 0, "completed", "L"⟩] := by
    simp [completedMatches]
  simp only [matchSummary, hc, Prod.mk.injEq]
  refine ⟨by rfl, ?_⟩
  have ht : totalGoals
      [⟨"m1", some 2, some 1, "completed", "L"⟩,
        (⟨"m2", some 0, some 0, "completed", "L"⟩ : MatchRow)] = 3 := by rfl
  simp only [averageGoalsPerMatch, ht, List.length_cons, List.length_nil]
  norm_num
  rw [round2_eval _ 150 (by norm_num) (by norm_num)]
  norm_num

/-- C8: the summary is total; with no completed match the average is 0
(the division is guarded), and on the empty collection both aggregates
are 0. -/
theorem c8_average_zero_when_no_completed :
    matchSummary ([] : List MatchRow) = (0, 0) ∧
      ∀ rows : List MatchRow, completedMatches rows = [] → (matchSummary rows).2 = 0 := by
  constructor
  · rfl
  · intro rows h
    simp [matchSummary, h, averageGoalsPerMatch]

theorem c8_average_zero_when_no_completed_witness :
    (matchSummary [(⟨"m3", none, none, "scheduled", "L"⟩ : MatchRow)]).2 = 0 :=
  c8_average_zero_when_no_completed.2 _ (by simp [completedMatches])

/-- C7: invoking the prediction request with the same (nonempty) team
selected on both sides fails with the equal-team validation error and
never issues a prediction request. -/
theorem c7_equal_pair_rejected (t : String) (h : t ≠ "") :
    handlePredictValidate t t = .showError "Home and Away teams must be different." ∧
      ∀ h' a', handlePredictValidate t t ≠ .requestPrediction h' a' := by
  have he : handlePredictValidate t t = .showError "Home and Away teams must be different." := by
    simp [handlePredictValidate, h]
  exact ⟨he, fun h' a' => by simp [he]⟩

theorem c7_equal_pair_rejected_witness :
    handlePredictValidate "Barcelona" "Barcelona" =
        .showError "Home and Away teams must be different." ∧
      ∀ h' a', handlePredictValidate "Barcelona" "Barcelona" ≠ .requestPrediction h' a' :=
  c7_equal_pair_rejected "Barcelona" (by decide)

/-- C3 counterexample: on the tied triple (30, 35, 35) the code declares
an away win, while the specified tie-break (draw preferred over away)
would declare a draw. -/
theorem c3_tie_counterexample :
    getMostLikelyOutcome 30 35 35 = "Away Win" ∧ specWinner 30 35 35 = "Draw" := by
  constructor
  · norm_num [getMostLikelyOutcome]
  · norm_num [specWinner]

/-- C3 amended: the outcome with the strictly largest probability wins,
but ties at the maximum are broken home over away over draw (not home
over draw over away): home wins whenever its probability is at least both
others, otherwise away wins whenever its probability is at least the
draw probability. -/
theorem c3_winner_tiebreak (h d a : ℚ) :
    getMostLikelyOutcome h d a =
      if d ≤ h ∧ a ≤ h then "Home Win" else if d ≤ a then "Away Win" else "Draw" := by
  unfold getMostLikelyOutcome
  by_cases hh : d ≤ h ∧ a ≤ h
  · rw [if_pos hh, if_pos (by rw [max_eq_left hh.1, max_eq_left hh.2] : max (max h d) a = h)]
  · have hmh : ¬ max (max h d) a = h := by
      intro heq
      exact hh ⟨le_trans (le_max_right h d) (le_trans (le_max_left (max h d) a) heq.le),
        le_trans (le_max_right (max h d) a) heq.le⟩
    rw [if_neg hh, if_neg hmh]
    by_cases hda : d ≤ a
    · have hha : h ≤ a := by
        rcases not_and_or.mp hh with hc | hc
        · push_neg at hc
          exact le_trans hc.le hda
        · push_neg at hc
          exact hc.le
      rw [if_pos hda, if_pos (by rw [max_eq_right (max_le hha hda)] : max (max h d) a = a)]
    · have hma : ¬ max (max h d) a = a := by
        intro heq
        push_neg at hda
        exact absurd (le_trans (le_max_right h d) (le_trans (le_max_left (max h d) a) heq.le)) (not_le.mpr hda)
      rw [if_neg hda, if_neg hma]

lemma round2_range (x : ℚ) (n m : ℤ) (h1 : (n : ℚ) ≤ x * 100) (h2 : x * 100 < m) :
    (n : ℚ) / 100 ≤ round2 x ∧ round2 x ≤ (m : ℚ) / 100 := by
  obtain ⟨ha, hb⟩ := round_bounds_int (x * 100) n m h1 h2
  unfold round2
  constructor
  · have hc : (n : ℚ) ≤ (round (x * 100) : ℚ) := by exact_mod_cast ha
    linarith
  · have hc : ((round (x * 100) : ℤ) : ℚ) ≤ (m : ℚ) := by exact_mod_cast hb
    linarith

lemma winProb_range (r : ℚ) (h0 : 0 ≤ r) (h1 : r < 1) :
    30 ≤ round2 (r * 40 + 30) ∧ round2 (r * 40 + 30) ≤ 70 := by
  obtain ⟨ha, hb⟩ := round2_range (r * 40 + 30) 3000 7000 (by push_cast; linarith) (by push_cast; linarith)
  constructor <;> [linarith [ha]; linarith [hb]]

lemma drawProb_range (r : ℚ) (h0 : 0 ≤ r) (h1 : r < 1) :
    20 ≤ round2 (r * 30 + 20) ∧ round2 (r * 30 + 20) ≤ 50 := by
  obtain ⟨ha, hb⟩ := round2_range (r * 30 + 20) 2000 5000 (by push_cast; linarith) (by push_cast; linarith)
  constructor <;> [linarith [ha]; linarith [hb]]

lemma score_range (r : ℚ) (h0 : 0 ≤ r) (h1 : r < 1) :
    1/2 ≤ round2 (r * 3 + 0.5) ∧ round2 (r * 3 + 0.5) ≤ 7/2 := by
  obtain ⟨ha, hb⟩ := round2_range (r * 3 + 0.5) 50 350
    (by push_cast; norm_num; linarith) (by push_cast; norm_num; linarith)
  constructor <;> [linarith [ha]; linarith [hb]]

/-- C1 counterexample: at the concrete draws (0.5, 0.5, 0.5) the three
stored probabilities are 50.00, 35.00 and 50.00; they sum to 135, not
100 — the generator applies no normalization or residual correction. -/
theorem c1_sum_counterexample :
    (mockPrediction "m1" (1/2) (1/2) (1/2) (1/2) (1/2)).home_win_probability +
        (mockPrediction "m1" (1/2) (1/2) (1/2) (1/2) (1/2)).draw_probability +
        (mockPrediction "m1" (1/2) (1/2) (1/2) (1/2) (1/2)).away_win_probability = 135 ∧
      ¬ ((mockPrediction "m1" (1/2) (1/2) (1/2) (1/2) (1/2)).home_win_probability +
          (mockPrediction "m1" (1/2) (1/2) (1/2) (1/2) (1/2)).draw_probability +
          (mockPrediction "m1" (1/2) (1/2) (1/2) (1/2) (1/2)).away_win_probability = 100) := by
  have hsum : (mockPrediction "m1" (1/2) (1/2) (1/2) (1/2) (1/2)).home_win_probability +
      (mockPrediction "m1" (1/2) (1/2) (1/2) (1/2) (1/2)).draw_probability +
      (mockPrediction "m1" (1/2) (1/2) (1/2) (1/2) (1/2)).away_win_probability = 135 := by
    simp only [mockPrediction]
    rw [round2_eval ((1:ℚ)/2 * 40 + 30) 5000 (by norm_num) (by norm_num),
      round2_eval ((1:ℚ)/2 * 30 + 20) 3500 (by norm_num) (by norm_num)]
    norm_num
  exact ⟨hsum, by rw [hsum]; norm_num⟩

/-- C1 amended: the generator performs no normalization and no
rounding-residual correction; the three probabilities are independent
rounded samples, so for all draws in [0, 1) their sum only satisfies
80 ≤ sum ≤ 190 and need not equal 100. -/
theorem c1_probability_sum_bounds (mid : String) (r1 r2 r3 r4 r5 : ℚ)
    (h3a : 0 ≤ r3) (h3b : r3 < 1) (h4a : 0 ≤ r4) (h4b : r4 < 1)
    (h5a : 0 ≤ r5) (h5b : r5 < 1) :
    80 ≤ (mockPrediction mid r1 r2 r3 r4 r5).home_win_probability +
        (mockPrediction mid r1 r2 r3 r4 r5).draw_probability +
        (mockPrediction mid r1 r2 r3 r4 r5).away_win_probability ∧
      (mockPrediction mid r1 r2 r3 r4 r5).home_win_probability +
        (mockPrediction mid r1 r2 r3 r4 r5).draw_probability +
        (mockPrediction mid r1 r2 r3 r4 r5).away_win_probability ≤ 190 := by
  simp only [mockPrediction]
  obtain ⟨a1, a2⟩ := winProb_range r3 h3a h3b
  obtain ⟨b1, b2⟩ := drawProb_range r4 h4a h4b
  obtain ⟨c1, c2⟩ := winProb_range r5 h5a h5b
  constructor <;> linarith

theorem c1_probability_sum_bounds_witness :
    80 ≤ (mockPrediction "w1" 0 0 (1/4) (1/4) (1/4)).home_win_probability +
        (mockPrediction "w1" 0 0 (1/4) (1/4) (1/4)).draw_probability +
        (mockPrediction "w1" 0 0 (1/4) (1/4) (1/4)).away_win_probability ∧
      (mockPrediction "w1" 0 0 (1/4) (1/4) (1/4)).home_win_probability +
        (mockPrediction "w1" 0 0 (1/4) (1/4) (1/4)).draw_probability +
        (mockPrediction "w1" 0 0 (1/4) (1/4) (1/4)).away_win_probability ≤ 190 :=
  c1_probability_sum_bounds "w1" 0 0 (1/4) (1/4) (1/4) (by norm_num) (by norm_num)
    (by norm_num) (by norm_num) (by norm_num) (by norm_num)

/-- C10 counterexample: at draw 0.9999 the raw home-win value 69.996
rounds to 70.00, so the stored probability is exactly 70 and does not lie
in the half-open interval [30, 70). -/
theorem c10_range_counterexample :
    (mockPrediction "m1" 0 0 (9999/10000) 0 0).home_win_probability = 70 ∧
      ¬ ((mockPrediction "m1" 0 0 (9999/10000) 0 0).home_win_probability < 70) := by
  have h : (mockPrediction "m1" 0 0 (9999/10000) 0 0).home_win_probability = 70 := by
    simp only [mockPrediction]
    rw [round2_eval ((9999:ℚ)/10000 * 40 + 30) 7000 (by norm_num) (by norm_num)]
    norm_num
  exact ⟨h, by rw [h]; norm_num⟩

/-- C10 amended: for all draws in [0, 1) the rounded probabilities lie in
the closed intervals [30, 70], [20, 50], [30, 70] and the rounded scores
in [0.5, 3.5] (rounding can reach the upper endpoint), the probability
sum is at least 80, and it can exceed 100 (146 at draws 0.6). -/
theorem c10_prediction_range_bounds (mid : String) (r1 r2 r3 r4 r5 : ℚ)
    (h1a : 0 ≤ r1) (h1b : r1 < 1) (h2a : 0 ≤ r2) (h2b : r2 < 1)
    (h3a : 0 ≤ r3) (h3b : r3 < 1) (h4a : 0 ≤ r4) (h4b : r4 < 1)
    (h5a : 0 ≤ r5) (h5b : r5 < 1) :
    (1/2 ≤ (mockPrediction mid r1 r2 r3 r4 r5).predicted_home_score ∧
        (mockPrediction mid r1 r2 r3 r4 r5).predicted_home_score ≤ 7/2) ∧
      (1/2 ≤ (mockPrediction mid r1 r2 r3 r4 r5).predicted_away_score ∧
        (mockPrediction mid r1 r2 r3 r4 r5).predicted_away_score ≤ 7/2) ∧
      (30 ≤ (mockPrediction mid r1 r2 r3 r4 r5).home_win_probability ∧
        (mockPrediction mid r1 r2 r3 r4 r5).home_win_probability ≤ 70) ∧
      (20 ≤ (mockPrediction mid r1 r2 r3 r4 r5).draw_probability ∧
        (mockPrediction mid r1 r2 r3 r4 r5).draw_probability ≤ 50) ∧
      (30 ≤ (mockPrediction mid r1 r2 r3 r4 r5).away_win_probability ∧
        (mockPrediction mid r1 r2 r3 r4 r5).away_win_probability ≤ 70) ∧
      80 ≤ (mockPrediction mid r1 r2 r3 r4 r5).home_win_probability +
        (mockPrediction mid r1 r2 r3 r4 r5).draw_probability +
        (mockPrediction mid r1 r2 r3 r4 r5).away_win_probability ∧
      100 < (mockPrediction "x10" 0 0 (3/5) (3/5) (3/5)).home_win_probability +
        (mockPrediction "x10" 0 0 (3/5) (3/5) (3/5)).draw_probability +
        (mockPrediction "x10" 0 0 (3/5) (3/5) (3/5)).away_win_probability := by
  simp only [mockPrediction]
  obtain ⟨s1, s2⟩ := score_range r1 h1a h1b
  obtain ⟨t1, t2⟩ := score_range r2 h2a h2b
  obtain ⟨a1, a2⟩ := winProb_range r3 h3a h3b
  obtain ⟨b1, b2⟩ := drawProb_range r4 h4a h4b
  obtain ⟨c1, c2⟩ := winProb_range r5 h5a h5b
  have hex : round2 ((3:ℚ)/5 * 40 + 30) + round2 ((3:ℚ)/5 * 30 + 20) +
      round2 ((3:ℚ)/5 * 40 + 30) = 146 := by
    rw [round2_eval ((3:ℚ)/5 * 40 + 30) 5400 (by norm_num) (by norm_num),
      round2_eval ((3:ℚ)/5 * 30 + 20) 3800 (by norm_num) (by norm_num)]
    norm_num
  refine ⟨⟨s1, s2⟩, ⟨t1, t2⟩, ⟨a1, a2⟩, ⟨b1, b2⟩, ⟨c1, c2⟩, by linarith, ?_⟩
  rw [hex]
  norm_num

theorem c10_prediction_range_bounds_witness :
    (1/2 ≤ (mockPrediction "w10" (1/4) (1/4) (1/4) (1/4) (1/4)).predicted_home_score ∧
        (mockPrediction "w10" (1/4) (1/4) (1/4) (1/4) (1/4)).predicted_home_score ≤ 7/2) ∧
      (1/2 ≤ (mockPrediction "w10" (1/4) (1/4) (1/4) (1/4) (1/4)).predicted_away_score ∧
        (mockPrediction "w10" (1/4) (1/4) (1/4) (1/4) (1/4)).predicted_away_score ≤ 7/2) ∧
      (30 ≤ (mockPrediction "w10" (1/4) (1/4) (1/4) (1/4) (1/4)).home_win_probability ∧
        (mockPrediction "w10" (1/4) (1/4) (1/4) (1/4) (1/4)).home_win_probability ≤ 70) ∧
      (20 ≤ (mockPrediction "w10" (1/4) (1/4) (1/4) (1/4) (1/4)).draw_probability ∧
        (mockPrediction "w10" (1/4) (1/4) (1/4) (1/4) (1/4)).draw_probability ≤ 50) ∧
      (30 ≤ (mockPrediction "w10" (1/4) (1/4) (1/4) (1/4) (1/4)).away_win_probability ∧
        (mockPrediction "w10" (1/4) (1/4) (1/4) (1/4) (1/4)).away_win_probability ≤ 70) ∧
      80 ≤ (mockPrediction "w10" (1/4) (1/4) (1/4) (1/4) (1/4)).home_win_probability +
        (mockPrediction "w10" (1/4) (1/4) (1/4) (1/4) (1/4)).draw_probability +
        (mockPrediction "w10" (1/4) (1/4) (1/4) (1/4) (1/4)).away_win_probability ∧
      100 < (mockPrediction "x10" 0 0 (3/5) (3/5) (3/5)).home_win_probability +
        (mockPrediction "x10" 0 0 (3/5) (3/5) (3/5)).draw_probability +
        (mockPrediction "x10" 0 0 (3/5) (3/5) (3/5)).away_win_probability :=
  c10_prediction_range_bounds "w10" (1/4) (1/4) (1/4) (1/4) (1/4)
    (by norm_num) (by norm_num) (by norm_num) (by norm_num) (by norm_num)
    (by norm_num) (by norm_num) (by norm_num) (by norm_num) (by norm_num)

/-- C4 counterexample: with input order [Ben (10 goals), Alex (10
goals)], the ranking keeps Ben before Alex even though ascending
(case-insensitive) name order would put Alex first — equal metric values
keep input order, they are not reordered by name. -/
theorem c4_tie_counterexample :
    (topScorers [⟨"p1", "Ben", "Forward", 10, 0, 0, none⟩,
      ⟨"p2", "Alex", "Forward", 10, 0, 0, none⟩]).map (fun e => (e.name, e.goals)) =
        [("Ben", 10), ("Alex", 10)] ∧
      "Alex" < "Ben" := by
  constructor
  · decide
  · rw [String.lt_iff_toList_lt]
    decide

/-- C4 amended: the ranking keeps only players with a positive metric
value, is sorted non-increasing by the metric, truncates to 10 entries,
and the sort is stable: entries with equal metric value appear in input
order, not in ascending name order. -/
theorem c4_topScorers_ranking (players : List Player) :
    (∀ e ∈ topScorers players, 0 < e.goals) ∧
      (topScorers players).length ≤ 10 ∧
      (topScorers players).Pairwise (fun e f => f.goals ≤ e.goals) ∧
      ∀ v : ℤ, (sortByGoalsDesc (players.filter (fun p => decide (0 < p.goals)))).filter
          (fun q => q.goals == v) =
        (players.filter (fun p => decide (0 < p.goals))).filter (fun q => q.goals == v) := by
  refine ⟨?_, ?_, ?_, fun v => filter_sortByGoalsDesc _ v⟩
  · intro e he
    simp only [topScorers, List.mem_map] at he
    obtain ⟨p, hp, rfl⟩ := he
    have hp2 : p ∈ sortByGoalsDesc (players.filter (fun p => decide (0 < p.goals))) :=
      List.mem_of_mem_take hp
    have hp3 : p ∈ players.filter (fun p => decide (0 < p.goals)) :=
      (perm_sortByGoalsDesc _).mem_iff.mp hp2
    have hp4 := List.of_mem_filter hp3
    simpa using hp4
  · simp only [topScorers, List.length_map, List.length_take]
    exact min_le_left _ _
  · simp only [topScorers]
    rw [List.pairwise_map]
    exact (pairwise_sortByGoalsDesc _).sublist (List.take_sublist _ _)

theorem c4_topScorers_ranking_witness :
    0 < (⟨"Ben", 10, "Unknown"⟩ : ScorerEntry).goals :=
  (c4_topScorers_ranking [⟨"p1", "Ben", "Forward", 10, 0, 0, none⟩]).1
    ⟨"Ben", 10, "Unknown"⟩ (by decide)

/-- C6 counterexample: with input [A (1 goal), B (5 goals, 5 assists)]
the performance sequence is [A (total 1), B (total 10)] — it is not
sorted by total at all (the source applies no sort before truncation). -/
theorem c6_not_sorted_counterexample :
    (performanceData [⟨"p1", "A", "Forward", 1, 0, 0, none⟩,
        ⟨"p2", "B", "Forward", 5, 5, 0, none⟩]).map (fun e => e.total) = [1, 10] ∧
      ¬ (performanceData [⟨"p1", "A", "Forward", 1, 0, 0, none⟩,
        ⟨"p2", "B", "Forward", 5, 5, 0, none⟩]).Pairwise (fun e f => f.total ≤ e.total) := by
  have hv : performanceData [⟨"p1", "A", "Forward", 1, 0, 0, none⟩,
      ⟨"p2", "B", "Forward", 5, 5, 0, none⟩] =
      [⟨"A", 1, 0, 1⟩, ⟨"B", 5, 5, 10⟩] := by decide
  rw [hv]
  refine ⟨rfl, ?_⟩
  intro hp
  have h10 := (List.pairwise_cons.mp hp).1 ⟨"B", 5, 5, 10⟩ (by simp)
  norm_num at h10

/-- C6 amended: the performance sequence consists of the first 20 players
(in input order) with positive goals or positive assists, each carrying
total = goals + assists; the sequence preserves the input order of the
players and is not sorted by total. -/
theorem c6_performanceData_characterization (players : List Player) :
    (∀ e ∈ performanceData players, e.total = e.goals + e.assists) ∧
      (∀ e ∈ performanceData players, 0 < e.goals ∨ 0 < e.assists) ∧
      (performanceData players).length ≤ 20 ∧
      List.Sublist ((performanceData players).map (fun e => (e.goals, e.assists)))
        (players.map (fun p => (p.goals, p.assists))) := by
  refine ⟨?_, ?_, ?_, ?_⟩
  · intro e he
    simp only [performanceData, List.mem_map] at he
    obtain ⟨p, _, rfl⟩ := he
    rfl
  · intro e he
    simp only [performanceData, List.mem_map] at he
    obtain ⟨p, hp, rfl⟩ := he
    have hp2 := List.of_mem_filter (List.mem_of_mem_take hp)
    simpa using hp2
  · simp only [performanceData, List.length_map, List.length_take]
    exact min_le_left _ _
  · simp only [performanceData, List.map_map]
    have hs : List.Sublist
        ((players.filter (fun p => decide (0 < p.goals) || decide (0 < p.assists))).take 20)
        players :=
      (List.take_sublist _ _).trans (List.filter_sublist _)
    exact hs.map _

theorem c6_performanceData_characterization_witness :
    (⟨"B", 5, 5, 10⟩ : PerfEntry).total = (⟨"B", 5, 5, 10⟩ : PerfEntry).goals +
      (⟨"B", 5, 5, 10⟩ : PerfEntry).assists :=
  (c6_performanceData_characterization [⟨"p2", "B", "Forward", 5, 5, 0, none⟩]).1
    ⟨"B", 5, 5, 10⟩ (by decide)

/-- C2 counterexample: with a prediction for match m1 already stored, a
second invocation of the generator for m1 succeeds and inserts a second
record — afterwards the store holds two predictions for m1, so the second
call neither fails nor leaves the store unchanged. -/
theorem c2_second_insert_counterexample :
    ((generatePrediction
        (generatePrediction [] "m1" (1/2) (1/2) (1/2) (1/2) (1/2))
        "m1" (1/2) (1/2) (1/2) (1/2) (1/2)).filter
      (fun p => p.match_id == "m1")).length = 2 := by
  rfl

/-- C2 amended: duplicate prevention is only the client-side filtering of
the upcoming-match list — a match surviving `filterUnpredicted` has no
stored prediction — while `generatePrediction` itself performs no
uniqueness check: it always inserts, growing the count of records for the
given matchId by exactly one even when one already exists (the table has
no unique constraint on match_id). -/
theorem c2_client_filter_only :
    (∀ (preds : List PredictionRow) (ms : List MatchInfo),
        ∀ m ∈ filterUnpredicted preds ms, ∀ p ∈ preds, p.match_id ≠ m.id) ∧
      ∀ (store : List PredictionRow) (mid : String) (r1 r2 r3 r4 r5 : ℚ),
        ((generatePrediction store mid r1 r2 r3 r4 r5).filter
            (fun p => p.match_id == mid)).length =
          (store.filter (fun p => p.match_id == mid)).length + 1 := by
  constructor
  · intro preds ms m hm p hp heq
    have h1 := List.of_mem_filter hm
    simp only [Bool.not_eq_true'] at h1
    have h2 : m.id ∈ preds.map (fun p => p.match_id) :=
      List.mem_map.mpr ⟨p, hp, heq⟩
    have h3 : (preds.map (fun p => p.match_id)).elem m.id = true :=
      List.elem_eq_true_of_mem h2
    rw [show (preds.map (fun p => p.match_id)).contains m.id =
        (preds.map (fun p => p.match_id)).elem m.id from rfl] at h1
    rw [h3] at h1
    exact absurd h1 (by simp)
  · intro store mid r1 r2 r3 r4 r5
    simp only [generatePrediction, insertPrediction, List.filter_append,
      List.length_append]
    have hm : (mockPrediction mid r1 r2 r3 r4 r5).match_id = mid := rfl
    simp [List.filter_cons, hm]

theorem c2_client_filter_only_witness :
    (mockPrediction "m1" 0 0 0 0 0).match_id ≠ "m2" ∧
      ((generatePrediction [] "m3" 0 0 0 0 0).filter
          (fun p => p.match_id == "m3")).length =
        (([] : List PredictionRow).filter (fun p => p.match_id == "m3")).length + 1 :=
  ⟨c2_client_filter_only.1 [mockPrediction "m1" 0 0 0 0 0]
      [⟨"m2", "2025-01-01", "L", "scheduled"⟩] ⟨"m2", "2025-01-01", "L", "scheduled"⟩
      (by decide) (mockPrediction "m1" 0 0 0 0 0) (List.mem_singleton.mpr rfl),
    c2_client_filter_only.2 [] "m3" 0 0 0 0 0⟩
